import Mathlib

/-!
Shallow embedding of the literature-analysis pipeline in
`src/analysis/bibliography.py`.

External library calls (litstudy loaders, the Scopus refinement service,
matplotlib plotting) are opaque effectful calls in the source; here each
call site is parameterised by an explicit *outcome* value describing what
the external call did (returned data, returned nothing, or raised an
exception).  The repository's own code — the control flow around those
calls, the set algebra on document collections, the threshold comparison —
is translated directly.

Documents are identified by their identity key, so a document collection
is a list of identities; `litstudy`'s `|` and `-` operators are
identity-based union and difference.  Logging is modelled by the list of
emitted severity levels, `sys.exit(1)` by `Except.error 1`, and the
filesystem touched by plot saving by an explicit `FS` record threaded
through the pipeline.
-/

namespace LitAnalysis

/-- Severity levels of the `logging` module as used by the script. -/
inductive LogLevel where
  | info
  | warning
  | error
  | critical
deriving DecidableEq, Repr

/-- `NUM_TOPICS = 10` from the configuration constants. -/
def NUM_TOPICS : Nat := 10

/-- `DEFAULT_TOPIC = "travel"` from the configuration constants. -/
def DEFAULT_TOPIC : String := "travel"

/-- The `threshold = 0.2` literal in `analyze_topics`; topic weights are
modelled as rationals. -/
def threshold : ℚ := 0.2

/-- Identity-based union of document collections: `docs_all | d` in
litstudy keeps the left operand and adds the right operand's documents
whose identity is not already present. -/
def dsUnion {α : Type} [DecidableEq α] (a b : List α) : List α :=
  a ++ b.filter (fun x => decide (x ∉ a))

/-- Identity-based difference of document collections: `docs - docs_exclude`
keeps the documents of the left operand whose identity does not occur in
the right operand. -/
def dsDiff {α : Type} [DecidableEq α] (a b : List α) : List α :=
  a.filter (fun x => decide (x ∉ b))

/-- A litstudy `DocumentSet` late in the pipeline: its member documents
plus the named boolean properties attached by `add_property`. -/
structure DocSet (α : Type) where
  docs : List α
  props : List (String × List Bool)
deriving DecidableEq, Repr

/-- `DocumentSet.add_property`: attach a named boolean vector, producing a
new collection view with the same members. -/
def DocSet.add_property {α : Type} (ds : DocSet α) (name : String)
    (vals : List Bool) : DocSet α :=
  { ds with props := ds.props ++ [(name, vals)] }

/-- What an external loader call observed for one source file:
the file is absent, the loader raised, or it returned a (possibly empty)
document list. -/
inductive LoadOutcome (α : Type) where
  | absent
  | raises
  | loaded (l : List α)
deriving DecidableEq, Repr

/-- `_load_single_source`: absent file → warn and skip; loader exception →
log error and skip; zero documents → warn and skip; otherwise log info and
return the documents. -/
def load_single_source {α : Type} :
    LoadOutcome α → Option (List α) × List LogLevel
  | .absent => (none, [.warning])
  | .raises => (none, [.error])
  | .loaded l =>
      if l.isEmpty then (none, [.warning]) else (some l, [.info])

/-- `load_data`: load the three sources (`ieee.csv`, `springer.csv`,
`zotero.bib`) independently, merge the successful ones by repeated union;
if none succeeded, log critical and `sys.exit(1)` (modelled as
`Except.error 1`). -/
def load_data {α : Type} [DecidableEq α]
    (ieee springer zotero : LoadOutcome α) :
    Except Nat (List α) × List LogLevel :=
  let r1 := load_single_source ieee
  let r2 := load_single_source springer
  let r3 := load_single_source zotero
  let logs := r1.2 ++ r2.2 ++ r3.2
  match r1.1.toList ++ r2.1.toList ++ r3.1.toList with
  | [] => (.error 1, logs ++ [.critical])
  | h :: t => (.ok (t.foldl dsUnion h), logs ++ [.info])

/-- What the optional `exclude.ris` load observed: the file is absent,
the load raised, or it returned a (possibly empty) exclusion list. -/
inductive ExcludeOutcome (α : Type) where
  | absent
  | raises
  | loaded (l : List α)
deriving DecidableEq, Repr

/-- `filter_data`: return the input unchanged when `exclude.ris` is absent
or its load raises; when it loads, subtract it only if it is non-empty
(Python truthiness of the loaded set). -/
def filter_data {α : Type} [DecidableEq α]
    (docs : List α) (exc : ExcludeOutcome α) : List α × List LogLevel :=
  match exc with
  | .absent => (docs, [])
  | .raises => (docs, [.warning])
  | .loaded l =>
      if l.isEmpty then (docs, [])
      else (dsDiff docs l, [.info])

/-- `refine_with_scopus`: on success, `refine_scopus` returns the found set
(whose entries may be null) and the not-found set; null entries are dropped
by `filter_docs`.  On any exception the original collection is returned
unchanged with two warnings. -/
def refine_with_scopus {α : Type}
    (docs : List α)
    (outcome : Except Unit (List (Option α) × List α)) :
    List α × List LogLevel :=
  match outcome with
  | .ok (found, _notfound) => (found.filterMap id, [.info, .info, .info])
  | .error _ => (docs, [.info, .warning, .warning])

/-- The filesystem / matplotlib state touched by the pipeline: whether the
output directory has been created, the files written there, and whether a
figure is currently open. -/
structure FS where
  dirCreated : Bool
  files : List String
  openFigure : Bool
deriving DecidableEq, Repr

/-- Outcomes of one plotting step: whether the plot-generating library call
raises, and whether `plt.savefig` raises when saving. -/
structure PlotOpEnv where
  genFails : Bool
  saveFails : Bool
deriving DecidableEq, Repr

/-- `save_or_show_plot`: in save mode, try `plt.savefig` (log info on
success, log error on exception) and close the figure in a `finally`
block either way; in display mode, `plt.show` and leave state alone. -/
def save_or_show_plot (save : Bool) (saveFails : Bool) (filename : String)
    (fs : FS) : FS × List LogLevel :=
  if save then
    if saveFails then ({ fs with openFigure := false }, [.error])
    else
      ({ fs with files := fs.files ++ [filename], openFigure := false },
       [.info])
  else (fs, [])

/-- The fixed ordered `plot_ops` filename list of `analyze_stats_plots`. -/
def plotOps : List String :=
  ["year_histogram.png", "affiliation_histogram.png",
   "author_histogram.png", "language_histogram.png",
   "country_histogram.png", "source_histogram.png"]

/-- One iteration of the `analyze_stats_plots` loop: log info, run the
plot function (an exception is caught and logged, ending the iteration),
then route through `save_or_show_plot`. -/
def statsStep (save : Bool) (pe : PlotOpEnv) (fname : String) (fs : FS) :
    FS × List LogLevel :=
  if pe.genFails then (fs, [.info, .error])
  else
    let s := save_or_show_plot save pe.saveFails fname fs
    (s.1, .info :: s.2)

/-- The `analyze_stats_plots` loop over the remaining `plot_ops` entries,
`i` being the index of the first one; returns the final state, the
filenames attempted in order, and the log. -/
def runPlotOps (save : Bool) (e : Nat → PlotOpEnv) :
    Nat → List String → FS → FS × List String × List LogLevel
  | _, [], fs => (fs, [], [])
  | i, fname :: rest, fs =>
      let s := statsStep save (e i) fname fs
      let r := runPlotOps save e (i + 1) rest s.1
      (r.1, fname :: r.2.1, s.2 ++ r.2.2)

/-- `analyze_stats_plots`: attempt the six histogram plots in the fixed
`plot_ops` order, each inside its own try/except. -/
def analyze_stats_plots (save : Bool) (e : Nat → PlotOpEnv) (fs : FS) :
    FS × List String × List LogLevel :=
  runPlotOps save e 0 plotOps fs

/-- `analyze_network`: build and render the co-citation network inside one
try/except; on failure log the error and continue. -/
def analyze_network (save : Bool) (pe : PlotOpEnv) (fs : FS) :
    FS × List LogLevel :=
  if pe.genFails then (fs, [.info, .error])
  else
    let s := save_or_show_plot save pe.saveFails
      "cocitation_network.png" fs
    (s.1, .info :: s.2)

/-- The steps of the `analyze_topics` try block at which an external call
can raise, in source order. -/
inductive TStep where
  | buildCorpus
  | wordDistPlot
  | trainModel
  | cloudPlot
  | embedPlot
  | resolveTopic
  | tagging
  | yearCmpPlot
  | sourceCmpPlot
deriving DecidableEq, Repr

/-- The fitted topic model's query surface: `best_topic_for_token` and the
document-by-topic weight matrix `doc2topic` (indexed by document position
and topic index). -/
structure TopicModelM where
  bestTopic : Option Nat
  doc2topic : Nat → Nat → ℚ

/-- The external outcomes seen by one `analyze_topics` run: the step at
which the first exception (if any) reaches the stage's except clause, the
fitted model, and which of the stage's `plt.savefig` calls fail. -/
structure TopicsEnv where
  failAt : Option TStep
  model : TopicModelM
  saveFails : TStep → Bool

/-- Topic resolution in `analyze_topics`: `best_topic_for_token` returning
`None` logs a warning and falls back to topic 0; otherwise the resolved
index is used and logged at info. -/
def resolveTopic : Option Nat → Nat × List LogLevel
  | none => (0, [.warning])
  | some t => (t, [.info])

/-- `topic_model.doc2topic[:, topic_id] > threshold`: the boolean relevance
vector over the collection's documents in order. -/
def tagVector (m : TopicModelM) (n tid : Nat) : List Bool :=
  (List.range n).map (fun i => decide (threshold < m.doc2topic i tid))

/-- `analyze_topics`: the whole stage runs in one try/except.  The local
`docs` variable is rebound by `add_property`, so the except clause returns
whatever `docs` holds at the moment the exception arrives — the original
collection before the property attachment, the tagged one after. -/
def analyze_topics {α : Type} (ds : DocSet α) (env : TopicsEnv)
    (save : Bool) (fs : FS) : DocSet α × FS × List LogLevel :=
  if env.failAt = some .buildCorpus then (ds, fs, [.info, .error])
  else if env.failAt = some .wordDistPlot then (ds, fs, [.info, .error])
  else
    let s1 := save_or_show_plot save (env.saveFails .wordDistPlot)
      "word_distribution.png" fs
    if env.failAt = some .trainModel then
      (ds, s1.1, [.info] ++ s1.2 ++ [.info, .error])
    else if env.failAt = some .cloudPlot then
      (ds, s1.1, [.info] ++ s1.2 ++ [.info, .error])
    else
      let s2 := save_or_show_plot save (env.saveFails .cloudPlot)
        "topic_clouds.png" s1.1
      if env.failAt = some .embedPlot then
        (ds, s2.1, [.info] ++ s1.2 ++ [.info] ++ s2.2 ++ [.error])
      else
        let s3 := save_or_show_plot save (env.saveFails .embedPlot)
          "topic_embedding.png" s2.1
        if env.failAt = some .resolveTopic then
          (ds, s3.1,
           [.info] ++ s1.2 ++ [.info] ++ s2.2 ++ s3.2 ++ [.error])
        else
          let tr := resolveTopic env.model.bestTopic
          if env.failAt = some .tagging then
            (ds, s3.1,
             [.info] ++ s1.2 ++ [.info] ++ s2.2 ++ s3.2 ++ tr.2 ++
               [.error])
          else
            let is_topic := tagVector env.model ds.docs.length tr.1
            let ds2 := ds.add_property "is_relevant_topic" is_topic
            if env.failAt = some .yearCmpPlot then
              (ds2, s3.1,
               [.info] ++ s1.2 ++ [.info] ++ s2.2 ++ s3.2 ++ tr.2 ++
                 [.error])
            else
              let s4 := save_or_show_plot save
                (env.saveFails .yearCmpPlot)
                "year_histogram_by_relevance.png" s3.1
              if env.failAt = some .sourceCmpPlot then
                (ds2, s4.1,
                 [.info] ++ s1.2 ++ [.info] ++ s2.2 ++ s3.2 ++ tr.2 ++
                   s4.2 ++ [.error])
              else
                let s5 := save_or_show_plot save
                  (env.saveFails .sourceCmpPlot)
                  "source_histogram_by_relevance.png" s4.1
                (ds2, s5.1,
                 [.info] ++ s1.2 ++ [.info] ++ s2.2 ++ s3.2 ++ tr.2 ++
                   s4.2 ++ s5.2)

/-- The pipeline stages of `main` after path resolution, in order. -/
inductive Stage where
  | loadStage
  | filterStage
  | refineStage
  | statsStage
  | networkStage
  | topicsStage
deriving DecidableEq, Repr

/-- All external outcomes seen by one `main` run, plus the `--save-plots`
flag. -/
structure Env (α : Type) where
  ieee : LoadOutcome α
  springer : LoadOutcome α
  zotero : LoadOutcome α
  exclude : ExcludeOutcome α
  scopus : Except Unit (List (Option α) × List α)
  savePlots : Bool
  statsEnv : Nat → PlotOpEnv
  networkEnv : PlotOpEnv
  topics : TopicsEnv

/-- `main` after argument parsing and path resolution: create the output
directory only in save mode, then run the stages in order; `load_data`'s
`sys.exit(1)` aborts everything after it.  Returns the stages that were
attempted, the final filesystem state, and the process outcome. -/
def main {α : Type} [DecidableEq α] (env : Env α) (fs0 : FS) :
    List Stage × FS × Except Nat (DocSet α) :=
  let fs1 := if env.savePlots then { fs0 with dirCreated := true } else fs0
  match (load_data env.ieee env.springer env.zotero).1 with
  | .error c => ([.loadStage], fs1, .error c)
  | .ok docs =>
      let docs1 := (filter_data docs env.exclude).1
      let docs2 := (refine_with_scopus docs1 env.scopus).1
      let fs2 := (analyze_stats_plots env.savePlots env.statsEnv fs1).1
      let fs3 := (analyze_network env.savePlots env.networkEnv fs2).1
      let t := analyze_topics ⟨docs2, []⟩ env.topics env.savePlots fs3
      ([.loadStage, .filterStage, .refineStage, .statsStage,
        .networkStage, .topicsStage], t.2.1, .ok t.1)

/-! ## General lemmas about the collection algebra -/

theorem mem_dsUnion {α : Type} [DecidableEq α] {a b : List α} {x : α} :
    x ∈ dsUnion a b ↔ x ∈ a ∨ x ∈ b := by
  simp only [dsUnion, List.mem_append, List.mem_filter, decide_eq_true_eq]
  tauto

theorem dsUnion_of_disjoint {α : Type} [DecidableEq α] {a b : List α}
    (h : ∀ x ∈ b, x ∉ a) : dsUnion a b = a ++ b := by
  unfold dsUnion
  congr 1
  exact List.filter_eq_self.mpr fun x hx => by simpa using h x hx

theorem dsUnion_length_of_disjoint {α : Type} [DecidableEq α]
    {a b : List α} (h : ∀ x ∈ b, x ∉ a) :
    (dsUnion a b).length = a.length + b.length := by
  rw [dsUnion_of_disjoint h, List.length_append]

/-! ## Claim theorems -/

/-- C2: if the Scopus enrichment call (or any step of the refinement body)
raises, `refine_with_scopus` returns the original input collection
unchanged — same members, none dropped — and logs warnings instead of
aborting. -/
theorem refine_exception_returns_input {α : Type} (docs : List α)
    (e : Unit) :
    (refine_with_scopus docs (Except.error e)).1 = docs ∧
    (refine_with_scopus docs (Except.error e)).2 =
      [LogLevel.info, LogLevel.warning, LogLevel.warning] :=
  ⟨rfl, rfl⟩

/-- C3: `filter_data` returns the merged collection unchanged when
`exclude.ris` is absent, loads empty, or its load raises; when it loads a
non-empty collection `E` it returns exactly the identity-based difference
`C - E`. -/
theorem filter_data_exclusion_semantics {α : Type} [DecidableEq α]
    (docs E : List α) :
    (filter_data docs ExcludeOutcome.absent).1 = docs ∧
    (filter_data docs ExcludeOutcome.raises).1 = docs ∧
    (filter_data docs (ExcludeOutcome.loaded [])).1 = docs ∧
    (E ≠ [] →
      (filter_data docs (ExcludeOutcome.loaded E)).1 = dsDiff docs E) := by
  refine ⟨rfl, rfl, rfl, fun h => ?_⟩
  simp [filter_data, List.isEmpty_eq_false.mpr h]

/-- C3 witness: on the concrete collection `[1, 2, 3]` with non-empty
exclusion list `[2]`, `filter_data` computes the set difference. -/
theorem filter_data_exclusion_semantics_witness :
    (filter_data [1, 2, 3] (ExcludeOutcome.loaded [2])).1 =
      dsDiff [1, 2, 3] [2] :=
  (filter_data_exclusion_semantics [1, 2, 3] [2]).2.2.2 (by decide)

/-- C9: in save mode `save_or_show_plot` always closes the current figure
after the save attempt — also when `plt.savefig` raises — and a save
failure is logged as an error and not propagated (the call returns
normally, writing no file). -/
theorem save_mode_always_closes_figure (b : Bool) (filename : String)
    (fs : FS) :
    (save_or_show_plot true b filename fs).1.openFigure = false ∧
    save_or_show_plot true true filename fs =
      ({ fs with openFigure := false }, [LogLevel.error]) := by
  cases b <;> exact ⟨rfl, rfl⟩

/-! ## Lemmas about `load_data` -/

theorem load_data_error_iff {α : Type} [DecidableEq α]
    (o1 o2 o3 : LoadOutcome α) :
    (∃ c, (load_data o1 o2 o3).1 = Except.error c) ↔
      ((load_single_source o1).1 = none ∧
       (load_single_source o2).1 = none ∧
       (load_single_source o3).1 = none) := by
  cases h1 : (load_single_source o1).1 <;>
    cases h2 : (load_single_source o2).1 <;>
      cases h3 : (load_single_source o3).1 <;>
        simp [load_data, h1, h2, h3]

theorem load_data_all_none {α : Type} [DecidableEq α]
    {o1 o2 o3 : LoadOutcome α}
    (h1 : (load_single_source o1).1 = none)
    (h2 : (load_single_source o2).1 = none)
    (h3 : (load_single_source o3).1 = none) :
    load_data o1 o2 o3 =
      (Except.error 1,
       ((load_single_source o1).2 ++
         ((load_single_source o2).2 ++ (load_single_source o3).2)) ++
         [LogLevel.critical]) := by
  simp [load_data, h1, h2, h3]

/-- C1: the pipeline exits with a non-zero code exactly when none of the
three sources yields a non-empty document collection; in that case the
exit code is 1, the `load_data` log ends with a critical-level line, and
no stage after loading is attempted. -/
theorem pipeline_exit_iff_no_sources {α : Type} [DecidableEq α]
    (env : Env α) (fs0 : FS) :
    ((∃ c, (main env fs0).2.2 = Except.error c) ↔
      ((load_single_source env.ieee).1 = none ∧
       (load_single_source env.springer).1 = none ∧
       (load_single_source env.zotero).1 = none)) ∧
    (∀ c, (main env fs0).2.2 = Except.error c →
      c = 1 ∧ (main env fs0).1 = [Stage.loadStage] ∧
      (load_data env.ieee env.springer env.zotero).2.getLast? =
        some LogLevel.critical) := by
  cases hL : (load_data env.ieee env.springer env.zotero).1 with
  | error c =>
      have hall := (load_data_error_iff env.ieee env.springer env.zotero).mp
        ⟨c, hL⟩
      have heq := load_data_all_none hall.1 hall.2.1 hall.2.2
      have hc1 : c = 1 := by
        rw [heq] at hL
        simpa using hL.symm
      have hlast : (load_data env.ieee env.springer env.zotero).2 =
          ((load_single_source env.ieee).2 ++
            ((load_single_source env.springer).2 ++
              (load_single_source env.zotero).2)) ++ [LogLevel.critical] := by
        rw [heq]
      constructor
      · simp only [main, hL]
        exact ⟨fun _ => hall, fun _ => ⟨c, rfl⟩⟩
      · intro c' hc'
        simp only [main, hL] at hc'
        have : c = c' := by simpa using hc'
        refine ⟨by rw [← this, hc1], by simp [main, hL], ?_⟩
        rw [hlast]
        exact List.getLast?_concat _
  | ok docs =>
      constructor
      · constructor
        · intro hex
          exfalso
          obtain ⟨c, hc⟩ := hex
          simp [main, hL] at hc
        · intro hall
          obtain ⟨c, hc⟩ :=
            (load_data_error_iff env.ieee env.springer env.zotero).mpr hall
          rw [hL] at hc
          exact absurd hc (by simp)
      · intro c hc
        simp [main, hL] at hc

/-- C1 witness: with all three source files absent, `main` exits with
code 1, attempts only the load stage, and the load log ends with a
critical line. -/
theorem pipeline_exit_iff_no_sources_witness :
    ((main (α := Nat)
        ⟨.absent, .absent, .absent, .absent, Except.error (), false,
         fun _ => ⟨false, false⟩, ⟨false, false⟩,
         ⟨none, ⟨none, fun _ _ => 0⟩, fun _ => false⟩⟩
        ⟨false, [], true⟩).1 = [Stage.loadStage]) ∧
    (load_data (α := Nat) .absent .absent .absent).2.getLast? =
      some LogLevel.critical := by
  have h := (pipeline_exit_iff_no_sources (α := Nat)
    ⟨.absent, .absent, .absent, .absent, Except.error (), false,
     fun _ => ⟨false, false⟩, ⟨false, false⟩,
     ⟨none, ⟨none, fun _ _ => 0⟩, fun _ => false⟩⟩
    ⟨false, [], true⟩).2 1 (by simp [main, load_data, load_single_source])
  exact ⟨h.2.1, h.2.2⟩

/-- C5: each source is handled independently — an absent file, an empty
load, or a loader exception skips only that source — and the merge is the
repeated identity-based union of exactly the successful sources, so
pairwise-disjoint sources contribute additively to the merged count. -/
theorem loader_independence_and_counts {α : Type} [DecidableEq α]
    (l1 l2 l3 : List α)
    (h1 : l1 ≠ []) (h2 : l2 ≠ []) (h3 : l3 ≠ [])
    (d21 : ∀ x ∈ l2, x ∉ l1) (d31 : ∀ x ∈ l3, x ∉ l1)
    (d32 : ∀ x ∈ l3, x ∉ l2) :
    (load_data (LoadOutcome.loaded l1) (.loaded l2) (.loaded l3)).1 =
      Except.ok (dsUnion (dsUnion l1 l2) l3) ∧
    (dsUnion (dsUnion l1 l2) l3).length =
      l1.length + l2.length + l3.length ∧
    (∀ o : LoadOutcome α, (load_single_source o).1 = none →
      (load_data o (.loaded l2) (.loaded l3)).1 =
        Except.ok (dsUnion l2 l3) ∧
      (load_data (.loaded l1) o (.loaded l3)).1 =
        Except.ok (dsUnion l1 l3) ∧
      (load_data (.loaded l1) (.loaded l2) o).1 =
        Except.ok (dsUnion l1 l2)) := by
  have e1 := List.isEmpty_eq_false.mpr h1
  have e2 := List.isEmpty_eq_false.mpr h2
  have e3 := List.isEmpty_eq_false.mpr h3
  refine ⟨?_, ?_, ?_⟩
  · simp [load_data, load_single_source, e1, e2, e3]
  · have hd : ∀ x ∈ l3, x ∉ dsUnion l1 l2 := by
      intro x hx
      rw [mem_dsUnion]
      push_neg
      exact ⟨d31 x hx, d32 x hx⟩
    rw [dsUnion_length_of_disjoint hd, dsUnion_length_of_disjoint d21]
  · intro o ho
    refine ⟨?_, ?_, ?_⟩ <;>
      (simp only [load_data, ho]
       simp [load_single_source, e1, e2, e3, h1, h2, h3])

/-- C5 witness: three disjoint singleton sources merge to three documents,
and an absent first source leaves the union of the other two. -/
theorem loader_independence_and_counts_witness :
    (load_data (LoadOutcome.loaded [1]) (.loaded [2]) (.loaded [3])).1 =
      Except.ok (dsUnion (dsUnion [1] [2]) [3]) ∧
    (dsUnion (dsUnion [1] [2]) [3]).length = 3 ∧
    (load_data (α := Nat) .absent (.loaded [2]) (.loaded [3])).1 =
      Except.ok (dsUnion [2] [3]) := by
  have h := loader_independence_and_counts [1] [2] [3]
    (by decide) (by decide) (by decide) (by decide) (by decide) (by decide)
  exact ⟨h.1, h.2.1, (h.2.2 .absent (by decide)).1⟩

/-! ## Lemmas about the plotting stages -/

/-- The filenames among the remaining `plot_ops` entries whose generation
and save both succeed, in order — the files the stats stage writes in save
mode. -/
def survivingFiles (e : Nat → PlotOpEnv) : Nat → List String → List String
  | _, [] => []
  | i, fn :: rest =>
      if (e i).genFails || (e i).saveFails then survivingFiles e (i + 1) rest
      else fn :: survivingFiles e (i + 1) rest

theorem runPlotOps_attempts (save : Bool) (e : Nat → PlotOpEnv) :
    ∀ (ops : List String) (i : Nat) (fs : FS),
      (runPlotOps save e i ops fs).2.1 = ops := by
  intro ops
  induction ops with
  | nil => intro i fs; rfl
  | cons fn rest ih => intro i fs; simp [runPlotOps, ih]

theorem runPlotOps_files (e : Nat → PlotOpEnv) :
    ∀ (ops : List String) (i : Nat) (fs : FS),
      (runPlotOps true e i ops fs).1.files =
        fs.files ++ survivingFiles e i ops := by
  intro ops
  induction ops with
  | nil => intro i fs; simp [runPlotOps, survivingFiles]
  | cons fn rest ih =>
      intro i fs
      by_cases hg : (e i).genFails
      · simp [runPlotOps, statsStep, hg, survivingFiles, ih]
      · by_cases hs : (e i).saveFails
        · simp [runPlotOps, statsStep, hg, hs, survivingFiles,
            save_or_show_plot, ih]
        · simp [runPlotOps, statsStep, hg, hs, survivingFiles,
            save_or_show_plot, ih]

/-- C8: `analyze_stats_plots` attempts all six histogram plots in the
fixed `plot_ops` order whatever failures occur — a failing plot is logged
and every later plot is still attempted — and in save mode it writes
exactly the files of the ops whose generation and save both succeed. -/
theorem stats_plots_fixed_order_independent (save : Bool)
    (e : Nat → PlotOpEnv) (fs : FS) :
    (analyze_stats_plots save e fs).2.1 = plotOps ∧
    (analyze_stats_plots true e fs).1.files =
      fs.files ++ survivingFiles e 0 plotOps :=
  ⟨runPlotOps_attempts save e plotOps 0 fs,
   runPlotOps_files e plotOps 0 fs⟩

theorem save_or_show_plot_show (b : Bool) (fn : String) (fs : FS) :
    save_or_show_plot false b fn fs = (fs, []) := rfl

theorem statsStep_show (pe : PlotOpEnv) (fn : String) (fs : FS) :
    (statsStep false pe fn fs).1 = fs := by
  by_cases hg : pe.genFails <;> simp [statsStep, hg, save_or_show_plot]

theorem runPlotOps_show (e : Nat → PlotOpEnv) :
    ∀ (ops : List String) (i : Nat) (fs : FS),
      (runPlotOps false e i ops fs).1 = fs := by
  intro ops
  induction ops with
  | nil => intro i fs; rfl
  | cons fn rest ih => intro i fs; simp [runPlotOps, statsStep_show, ih]

theorem analyze_network_show (pe : PlotOpEnv) (fs : FS) :
    (analyze_network false pe fs).1 = fs := by
  by_cases hg : pe.genFails <;>
    simp [analyze_network, hg, save_or_show_plot]

theorem analyze_topics_show {α : Type} (ds : DocSet α) (env : TopicsEnv)
    (fs : FS) :
    (analyze_topics ds env false fs).2.1 = fs := by
  rcases hf : env.failAt with _ | s
  · simp [analyze_topics, hf, save_or_show_plot]
  · cases s <;> simp [analyze_topics, hf, save_or_show_plot]

/-- C10: when the save-plots flag is false the pipeline performs no
filesystem writes: the output directory is never created and no plot file
is written — every `save_or_show_plot` call takes the display branch. -/
theorem no_save_flag_no_writes {α : Type} [DecidableEq α] (env : Env α)
    (fs0 : FS) (h : env.savePlots = false) :
    (main env fs0).2.1.files = fs0.files ∧
    (main env fs0).2.1.dirCreated = fs0.dirCreated := by
  have hfs : (main env fs0).2.1 = fs0 := by
    cases hL : (load_data env.ieee env.springer env.zotero).1 with
    | error c => simp [main, hL, h]
    | ok docs =>
        simp [main, hL, h, analyze_stats_plots, runPlotOps_show,
          analyze_network_show, analyze_topics_show]
  rw [hfs]
  exact ⟨rfl, rfl⟩

/-- C10 witness: a concrete run with the save flag off leaves an empty
filesystem empty and the output directory uncreated. -/
theorem no_save_flag_no_writes_witness :
    (main (α := Nat)
        ⟨.loaded [1], .absent, .absent, .absent, Except.error (), false,
         fun _ => ⟨false, false⟩, ⟨false, false⟩,
         ⟨none, ⟨none, fun _ _ => 0⟩, fun _ => false⟩⟩
        ⟨false, [], true⟩).2.1.files = [] ∧
    (main (α := Nat)
        ⟨.loaded [1], .absent, .absent, .absent, Except.error (), false,
         fun _ => ⟨false, false⟩, ⟨false, false⟩,
         ⟨none, ⟨none, fun _ _ => 0⟩, fun _ => false⟩⟩
        ⟨false, [], true⟩).2.1.dirCreated = false :=
  no_save_flag_no_writes
    ⟨.loaded [1], .absent, .absent, .absent, Except.error (), false,
     fun _ => ⟨false, false⟩, ⟨false, false⟩,
     ⟨none, ⟨none, fun _ _ => 0⟩, fun _ => false⟩⟩
    ⟨false, [], true⟩ rfl

/-! ## Lemmas about `analyze_topics` -/

theorem analyze_topics_success {α : Type} (ds : DocSet α)
    (env : TopicsEnv) (save : Bool) (fs : FS)
    (hfail : env.failAt = none) :
    (analyze_topics ds env save fs).1 =
      ds.add_property "is_relevant_topic"
        (tagVector env.model ds.docs.length
          (resolveTopic env.model.bestTopic).1) := by
  simp [analyze_topics, hfail]

/-- C6: the relevance tagging marks a document relevant exactly when its
weight for the resolved topic is strictly greater than the 0.2 threshold;
a document whose weight equals 0.2 is excluded. -/
theorem relevance_threshold_strict {α : Type} (ds : DocSet α)
    (env : TopicsEnv) (save : Bool) (fs : FS) (i : Nat)
    (hfail : env.failAt = none) (hi : i < ds.docs.length) :
    ∃ v, (analyze_topics ds env save fs).1.props.getLast? =
        some ("is_relevant_topic", v) ∧
      (v[i]? = some true ↔
        threshold <
          env.model.doc2topic i (resolveTopic env.model.bestTopic).1) ∧
      (env.model.doc2topic i (resolveTopic env.model.bestTopic).1 =
          threshold → v[i]? = some false) := by
  refine ⟨tagVector env.model ds.docs.length
    (resolveTopic env.model.bestTopic).1, ?_, ?_, ?_⟩
  · rw [analyze_topics_success ds env save fs hfail]
    simp [DocSet.add_property]
  · simp [tagVector, List.getElem?_map, List.getElem?_range hi]
  · intro hw
    simp [tagVector, List.getElem?_map, List.getElem?_range hi, hw]

/-- C6 witness: a single document whose weight for the resolved topic is
exactly 0.2 is tagged not-relevant. -/
theorem relevance_threshold_strict_witness :
    ∃ v, (analyze_topics (⟨[5], []⟩ : DocSet Nat)
        ⟨none, ⟨some 0, fun _ _ => threshold⟩, fun _ => false⟩
        true ⟨false, [], true⟩).1.props.getLast? =
        some ("is_relevant_topic", v) ∧
      (v[0]? = some true ↔ threshold < threshold) ∧
      (threshold = threshold → v[0]? = some false) :=
  relevance_threshold_strict ⟨[5], []⟩
    ⟨none, ⟨some 0, fun _ _ => threshold⟩, fun _ => false⟩
    true ⟨false, [], true⟩ 0 rfl (by decide)

/-- C7: when `best_topic_for_token` yields no topic for the configured
keyword, `analyze_topics` logs a warning and tags relevance against topic
index 0 instead of raising; when a topic is resolved, that index is
used. -/
theorem keyword_fallback_topic_zero {α : Type} (ds : DocSet α)
    (env : TopicsEnv) (save : Bool) (fs : FS)
    (hfail : env.failAt = none) :
    (env.model.bestTopic = none →
      (analyze_topics ds env save fs).1 =
        ds.add_property "is_relevant_topic"
          (tagVector env.model ds.docs.length 0) ∧
      LogLevel.warning ∈ (analyze_topics ds env save fs).2.2) ∧
    (∀ t, env.model.bestTopic = some t →
      (analyze_topics ds env save fs).1 =
        ds.add_property "is_relevant_topic"
          (tagVector env.model ds.docs.length t)) := by
  constructor
  · intro hb
    constructor
    · rw [analyze_topics_success ds env save fs hfail, hb]
      simp [resolveTopic]
    · simp [analyze_topics, hfail, hb, resolveTopic]
  · intro t hb
    rw [analyze_topics_success ds env save fs hfail, hb]
    simp [resolveTopic]

/-- C7 witness: with the keyword absent from the fitted model's
vocabulary, the stage tags against topic 0 and logs a warning. -/
theorem keyword_fallback_topic_zero_witness :
    (analyze_topics (⟨[7], []⟩ : DocSet Nat)
        ⟨none, ⟨none, fun _ _ => 1⟩, fun _ => false⟩
        true ⟨false, [], true⟩).1 =
      DocSet.add_property ⟨[7], []⟩ "is_relevant_topic"
        (tagVector ⟨none, fun _ _ => 1⟩ 1 0) ∧
    LogLevel.warning ∈ (analyze_topics (⟨[7], []⟩ : DocSet Nat)
        ⟨none, ⟨none, fun _ _ => 1⟩, fun _ => false⟩
        true ⟨false, [], true⟩).2.2 :=
  (keyword_fallback_topic_zero ⟨[7], []⟩
    ⟨none, ⟨none, fun _ _ => 1⟩, fun _ => false⟩
    true ⟨false, [], true⟩ rfl).1 rfl

/-- C4 counterexample: when the exception arrives during the first
comparison plot — after `add_property` has rebound the local `docs` —
the except clause returns the tagged collection, not the collection as it
stood before the stage began. -/
theorem analyze_topics_atomicity_counterexample :
    (analyze_topics (⟨[0], []⟩ : DocSet Nat)
        ⟨some TStep.yearCmpPlot, ⟨some 0, fun _ _ => 1⟩, fun _ => false⟩
        true ⟨true, [], true⟩).1 ≠ (⟨[0], []⟩ : DocSet Nat) := by
  simp [analyze_topics, DocSet.add_property]

/-- C4 amended: an exception at any step up to and including the property
attachment returns the input collection unchanged with no relevance
property; an exception during the two comparison plots (which run after
the attachment) returns the fully tagged collection — the tagging itself
is still applied atomically. -/
theorem analyze_topics_failure_boundary {α : Type} (ds : DocSet α)
    (env : TopicsEnv) (save : Bool) (fs : FS) :
    (∀ s, env.failAt = some s →
      s ≠ TStep.yearCmpPlot → s ≠ TStep.sourceCmpPlot →
      (analyze_topics ds env save fs).1 = ds) ∧
    (∀ s, env.failAt = some s →
      (s = TStep.yearCmpPlot ∨ s = TStep.sourceCmpPlot) →
      (analyze_topics ds env save fs).1 =
        ds.add_property "is_relevant_topic"
          (tagVector env.model ds.docs.length
            (resolveTopic env.model.bestTopic).1)) := by
  constructor
  · intro s hs hy hsr
    cases s
    case yearCmpPlot => exact absurd rfl hy
    case sourceCmpPlot => exact absurd rfl hsr
    all_goals simp [analyze_topics, hs]
  · intro s hs hcase
    rcases hcase with h | h <;> subst h <;> simp [analyze_topics, hs]

/-- C4 amended witness: a training failure returns the untagged input,
while a failure in the source comparison plot returns the tagged
collection. -/
theorem analyze_topics_failure_boundary_witness :
    (analyze_topics (⟨[0], []⟩ : DocSet Nat)
        ⟨some TStep.trainModel, ⟨some 0, fun _ _ => 1⟩, fun _ => false⟩
        true ⟨true, [], true⟩).1 = (⟨[0], []⟩ : DocSet Nat) ∧
    (analyze_topics (⟨[0], []⟩ : DocSet Nat)
        ⟨some TStep.sourceCmpPlot, ⟨some 0, fun _ _ => 1⟩, fun _ => false⟩
        true ⟨true, [], true⟩).1 =
      DocSet.add_property ⟨[0], []⟩ "is_relevant_topic"
        (tagVector ⟨some 0, fun _ _ => 1⟩ 1 (resolveTopic (some 0)).1) :=
  ⟨(analyze_topics_failure_boundary ⟨[0], []⟩
      ⟨some TStep.trainModel, ⟨some 0, fun _ _ => 1⟩, fun _ => false⟩
      true ⟨true, [], true⟩).1 TStep.trainModel rfl
      (by decide) (by decide),
   (analyze_topics_failure_boundary ⟨[0], []⟩
      ⟨some TStep.sourceCmpPlot, ⟨some 0, fun _ _ => 1⟩, fun _ => false⟩
      true ⟨true, [], true⟩).2 TStep.sourceCmpPlot rfl (Or.inr rfl)⟩

end LitAnalysis
